import Mathlib

/-!
# Verification of the chatgpt-mac Electron wrapper (src/index.js)

Shallow embedding of the window-lifecycle manager, command actions,
export pipeline, zoom handlers, notes window and global-shortcut
registration of src/index.js, together with proofs of the claims of
the specification.

The program is single-threaded and event-driven.  Every operation of
the source is modelled as a pure function from an application state
(the two module-level window slots plus the set of live windows) to a
new state together with a list of observable effects (dialogs, file
writes, clipboard writes, ...).  Outcomes delivered by the
environment (save-dialog results, render/write failures) are passed
in as explicit oracle arguments.
-/

namespace ChatGPTMac

/-- Observable side effects of the program: everything src/index.js
does that crosses the process boundary (dialogs, file writes,
clipboard, shell, window-system calls, logging, shortcuts). -/
inductive Effect where
  | createWindow (id : Nat) (width height : Nat)
  | loadUrl (id : Nat) (url : String)
  | showWindow (id : Nat)
  | focusWindow (id : Nat)
  | restoreWindow (id : Nat)
  | reloadWebContents (id : Nat)
  | showSaveDialog (title defaultPath : String)
  | renderPdf (id : Nat)
  | extractText (id : Nat)
  | capturePage (id : Nat)
  | fileWrite (path : String) (data : String)
  | clipboardWrite (text : String)
  | openExternal (url : String)
  | errorDialog (title message : String)
  | infoDialog (title : String)
  | logError (msg : String)
  | setSize (id : Nat) (width height : Nat)
  | centerWindow (id : Nat)
  | setZoomFactor (id : Nat) (factor : ℚ)
  | setFullScreen (id : Nat) (flag : Bool)
  | setAlwaysOnTop (id : Nat) (flag : Bool)
  | registerShortcut (combo : String)
  | unregisterAllShortcuts
  | setAppMenu
  | setAppName (name : String)
  | quitApp
deriving Repr, DecidableEq

/-- A live BrowserWindow: the attributes of a window that the code
reads or writes (loaded address, size, minimized/visible state, zoom
factor, always-on-top and fullscreen flags). -/
structure Window where
  title : String
  url : String
  width : Nat
  height : Nat
  minimized : Bool
  visible : Bool
  zoomFactor : ℚ
  alwaysOnTop : Bool
  fullScreen : Bool
deriving Repr, DecidableEq

/-- The canonical starting address loaded by createMainWindow and
newChat (src/index.js lines 36 and 62). -/
def chatUrl : String := "https://chatgpt.com"

/-- Application state: the two module-level slots (mainWindow,
notesWindow, src/index.js lines 14-15), the association lists of live
(= created and not yet destroyed) windows of each kind, a fresh-id
counter, and the set of registered global shortcuts.  A slot holds
the id of a window; the window is destroyed exactly when its id no
longer appears in the corresponding live list. -/
structure AppState where
  nextId : Nat
  mainWindow : Option Nat
  notesWindow : Option Nat
  windowsM : List (Nat × Window)
  windowsN : List (Nat × Window)
  registeredShortcuts : List String
deriving Repr, DecidableEq

/-- The state before app.whenReady fires: no windows, empty slots. -/
def emptyState : AppState :=
  { nextId := 0, mainWindow := none, notesWindow := none,
    windowsM := [], windowsN := [], registeredShortcuts := [] }

/-- Look a window up by id in a live-window list. -/
def findWin (id : Nat) : List (Nat × Window) → Option Window
  | [] => none
  | (k, w) :: rest => if k = id then some w else findWin id rest

/-- Replace the window stored under an id (used for attribute
mutations such as loadURL, setSize, setZoomFactor). -/
def setWin (id : Nat) (w : Window) : List (Nat × Window) → List (Nat × Window)
  | [] => []
  | (k, w0) :: rest =>
      if k = id then (k, w) :: setWin id w rest else (k, w0) :: setWin id w rest

/-- Remove a window by id (destruction). -/
def removeWin (id : Nat) : List (Nat × Window) → List (Nat × Window)
  | [] => []
  | (k, w0) :: rest =>
      if k = id then removeWin id rest else (k, w0) :: removeWin id rest

/-- The live primary window the slot designates, if any: models the
JS test `mainWindow && !mainWindow.isDestroyed()` being false exactly
when this is `none`. -/
def getMain (s : AppState) : Option (Nat × Window) :=
  match s.mainWindow with
  | none => none
  | some id =>
    match findWin id s.windowsM with
    | none => none
    | some w => some (id, w)

/-- The live notes window the slot designates, if any: models
`notesWindow && !notesWindow.isDestroyed()`. -/
def getNotes (s : AppState) : Option (Nat × Window) :=
  match s.notesWindow with
  | none => none
  | some id =>
    match findWin id s.windowsN with
    | none => none
    | some w => some (id, w)

/-- Number of live primary windows. -/
def liveMainCount (s : AppState) : Nat := s.windowsM.length

/-- Number of live notes windows. -/
def liveNotesCount (s : AppState) : Nat := s.windowsN.length

/-- The window record a fresh primary window starts with
(src/index.js lines 22-36): 900x700, created hidden, loading the
canonical address, default zoom 1, flags off. -/
def mainWindowInit : Window :=
  { title := "GPT", url := chatUrl, width := 900, height := 700,
    minimized := false, visible := false, zoomFactor := 1,
    alwaysOnTop := false, fullScreen := false }

/-- createMainWindow (src/index.js lines 21-46): unconditionally
creates a fresh primary window, stores it in the mainWindow slot and
loads the canonical address.  The closed handler (lines 43-45) is
modelled in closeWindow below. -/
def createMainWindow (s : AppState) : AppState × List Effect :=
  let id := s.nextId
  ({ s with
      nextId := id + 1,
      mainWindow := some id,
      windowsM := (id, mainWindowInit) :: s.windowsM },
   [Effect.createWindow id 900 700, Effect.loadUrl id chatUrl])

/-- The ready-to-show once-handler (src/index.js lines 39-41): shows
the window currently held by the mainWindow slot, if any. -/
def readyToShow (s : AppState) : AppState × List Effect :=
  match getMain s with
  | none => (s, [])
  | some (id, w) =>
    ({ s with windowsM := setWin id { w with visible := true } s.windowsM },
     [Effect.showWindow id])

/-- The closed handler of a window (src/index.js lines 43-45 and
217-219): the window is destroyed (leaves the live list) and the
corresponding module-level slot is set back to null. -/
def closeWindow (s : AppState) (id : Nat) : AppState :=
  match findWin id s.windowsM with
  | some _ =>
    { s with windowsM := removeWin id s.windowsM, mainWindow := none }
  | none =>
    match findWin id s.windowsN with
    | some _ =>
      { s with windowsN := removeWin id s.windowsN, notesWindow := none }
    | none => s

/-- ensureMainWindow (src/index.js lines 48-56): create when the slot
is null or destroyed, else restore-if-minimized, show and focus. -/
def ensureMainWindow (s : AppState) : AppState × List Effect :=
  match getMain s with
  | none => createMainWindow s
  | some (id, w) =>
    ({ s with
        windowsM := setWin id { w with minimized := false, visible := true } s.windowsM },
     (if w.minimized then [Effect.restoreWindow id] else []) ++
       [Effect.showWindow id, Effect.focusWindow id])

/-- newChat (src/index.js lines 58-64): create when the slot is null
or destroyed, else re-navigate the existing window to the canonical
address. -/
def newChat (s : AppState) : AppState × List Effect :=
  match getMain s with
  | none => createMainWindow s
  | some (id, w) =>
    ({ s with windowsM := setWin id { w with url := chatUrl } s.windowsM },
     [Effect.loadUrl id chatUrl])

/-! ## Command actions (src/index.js lines 66-162 and menu handlers) -/

/-- Outcome of dialog.showSaveDialog: whether the user canceled, and
the chosen path (absent or empty both count as falsy in JS). -/
structure SaveDialogResult where
  canceled : Bool
  filePath : Option String
deriving Repr, DecidableEq

/-- JS truthiness of the filePath field: undefined and the empty
string are both falsy. -/
def pathTruthy : Option String → Bool
  | none => false
  | some p => !(p == "")

/-- saveChatAsPdf (src/index.js lines 66-88).  Oracle arguments:
the dialog outcome, the printToPDF outcome and the writeFile
outcome. -/
def saveChatAsPdf (s : AppState) (d : SaveDialogResult)
    (render : Except String String) (write : Except String Unit) :
    AppState × List Effect :=
  match getMain s with
  | none => (s, [])
  | some (id, _) =>
    let prompt := [Effect.showSaveDialog "Save Chat as PDF" "chatgpt-chat.pdf"]
    if d.canceled || !pathTruthy d.filePath then (s, prompt)
    else
      let fp := d.filePath.getD ""
      match render with
      | Except.error e =>
        (s, prompt ++ [Effect.renderPdf id,
                       Effect.logError ("Failed to save PDF: " ++ e),
                       Effect.errorDialog "Save Chat as PDF Failed" e])
      | Except.ok pdfData =>
        match write with
        | Except.error e =>
          (s, prompt ++ [Effect.renderPdf id, Effect.fileWrite fp pdfData,
                         Effect.logError ("Failed to save PDF: " ++ e),
                         Effect.errorDialog "Save Chat as PDF Failed" e])
        | Except.ok _ =>
          (s, prompt ++ [Effect.renderPdf id, Effect.fileWrite fp pdfData])

/-- saveChatAsText (src/index.js lines 90-112).  The extracted text
is written as-is; an empty extraction writes an empty file. -/
def saveChatAsText (s : AppState) (d : SaveDialogResult)
    (extract : Except String String) (write : Except String Unit) :
    AppState × List Effect :=
  match getMain s with
  | none => (s, [])
  | some (id, _) =>
    let prompt := [Effect.showSaveDialog "Save Chat as Text" "chatgpt-chat.txt"]
    if d.canceled || !pathTruthy d.filePath then (s, prompt)
    else
      let fp := d.filePath.getD ""
      match extract with
      | Except.error e =>
        (s, prompt ++ [Effect.extractText id,
                       Effect.logError ("Failed to save text: " ++ e),
                       Effect.errorDialog "Save Chat as Text Failed" e])
      | Except.ok text =>
        match write with
        | Except.error e =>
          (s, prompt ++ [Effect.extractText id, Effect.fileWrite fp text,
                         Effect.logError ("Failed to save text: " ++ e),
                         Effect.errorDialog "Save Chat as Text Failed" e])
        | Except.ok _ =>
          (s, prompt ++ [Effect.extractText id, Effect.fileWrite fp text])

/-- screenshotWindow (src/index.js lines 114-134). -/
def screenshotWindow (s : AppState) (d : SaveDialogResult)
    (capture : Except String String) (write : Except String Unit) :
    AppState × List Effect :=
  match getMain s with
  | none => (s, [])
  | some (id, _) =>
    let prompt := [Effect.showSaveDialog "Save Screenshot" "gpt-window.png"]
    if d.canceled || !pathTruthy d.filePath then (s, prompt)
    else
      let fp := d.filePath.getD ""
      match capture with
      | Except.error e =>
        (s, prompt ++ [Effect.capturePage id,
                       Effect.logError ("Failed to save screenshot: " ++ e),
                       Effect.errorDialog "Screenshot Failed" e])
      | Except.ok png =>
        match write with
        | Except.error e =>
          (s, prompt ++ [Effect.capturePage id, Effect.fileWrite fp png,
                         Effect.logError ("Failed to save screenshot: " ++ e),
                         Effect.errorDialog "Screenshot Failed" e])
        | Except.ok _ =>
          (s, prompt ++ [Effect.capturePage id, Effect.fileWrite fp png])

/-- copyChatUrl (src/index.js lines 136-146).  Oracle: a clipboard
failure message, if the clipboard write throws. -/
def copyChatUrl (s : AppState) (clipboardErr : Option String) :
    AppState × List Effect :=
  match getMain s with
  | none => (s, [])
  | some (_, w) =>
    if w.url == "" then (s, [])
    else
      match clipboardErr with
      | none => (s, [Effect.clipboardWrite w.url])
      | some e =>
        (s, [Effect.clipboardWrite w.url,
             Effect.logError ("Failed to copy URL: " ++ e),
             Effect.errorDialog "Copy URL Failed" e])

/-- openInBrowser (src/index.js lines 148-156). -/
def openInBrowser (s : AppState) (openErr : Option String) :
    AppState × List Effect :=
  match getMain s with
  | none => (s, [])
  | some (_, w) =>
    if w.url == "" then (s, [])
    else
      match openErr with
      | none => (s, [Effect.openExternal w.url])
      | some e =>
        (s, [Effect.openExternal w.url,
             Effect.logError ("Failed to open in browser: " ++ e),
             Effect.errorDialog "Open in Browser Failed" e])

/-- resetWindowSize (src/index.js lines 158-162). -/
def resetWindowSize (s : AppState) : AppState × List Effect :=
  match getMain s with
  | none => (s, [])
  | some (id, w) =>
    ({ s with windowsM := setWin id { w with width := 900, height := 700 } s.windowsM },
     [Effect.setSize id 900 700, Effect.centerWindow id])

/-- The Reload Chat menu handler (src/index.js lines 253-260). -/
def reloadChatClick (s : AppState) : AppState × List Effect :=
  match getMain s with
  | none => (s, [])
  | some (id, _) => (s, [Effect.reloadWebContents id])

/-! ## Zoom handlers (src/index.js lines 322-347) -/

/-- The factor computed by the Zoom In handler: f + 0.1, no bound. -/
def zoomInFactor (f : ℚ) : ℚ := f + 1/10

/-- The factor computed by the Zoom Out handler:
Math.max(0.5, f - 0.1). -/
def zoomOutFactor (f : ℚ) : ℚ := max (1/2) (f - 1/10)

/-- Zoom In menu handler. -/
def zoomInClick (s : AppState) : AppState × List Effect :=
  match getMain s with
  | none => (s, [])
  | some (id, w) =>
    let f := zoomInFactor w.zoomFactor
    ({ s with windowsM := setWin id { w with zoomFactor := f } s.windowsM },
     [Effect.setZoomFactor id f])

/-- Zoom Out menu handler. -/
def zoomOutClick (s : AppState) : AppState × List Effect :=
  match getMain s with
  | none => (s, [])
  | some (id, w) =>
    let f := zoomOutFactor w.zoomFactor
    ({ s with windowsM := setWin id { w with zoomFactor := f } s.windowsM },
     [Effect.setZoomFactor id f])

/-- Reset Zoom menu handler: sets the factor to exactly 1.0. -/
def zoomResetClick (s : AppState) : AppState × List Effect :=
  match getMain s with
  | none => (s, [])
  | some (id, w) =>
    ({ s with windowsM := setWin id { w with zoomFactor := 1 } s.windowsM },
     [Effect.setZoomFactor id 1])

/-- Toggle Full Screen menu handler (src/index.js lines 355-363). -/
def toggleFullScreenClick (s : AppState) : AppState × List Effect :=
  match getMain s with
  | none => (s, [])
  | some (id, w) =>
    ({ s with windowsM := setWin id { w with fullScreen := !w.fullScreen } s.windowsM },
     [Effect.setFullScreen id (!w.fullScreen)])

/-- Always On Top menu handler (src/index.js lines 374-381): reads
the current flag, inverts it, applies it. -/
def toggleAlwaysOnTopClick (s : AppState) : AppState × List Effect :=
  match getMain s with
  | none => (s, [])
  | some (id, w) =>
    ({ s with windowsM := setWin id { w with alwaysOnTop := !w.alwaysOnTop } s.windowsM },
     [Effect.setAlwaysOnTop id (!w.alwaysOnTop)])

/-! ## Notes window (src/index.js lines 164-220) -/

/-- The static document loaded into the notes window (src/index.js
lines 181-213, after .trim()). -/
def notesHtml : String :=
  "<!doctype html>\n<html>\n<head>\n<meta charset=\"utf-8\" />\n<title>GPT Notes</title>\n<style>\n  body \x7b\n    font-family: -apple-system, system-ui, sans-serif;\n    margin: 0;\n    padding: 8px;\n    background: #f5f5f5;\n  \x7d\n  h1 \x7b\n    font-size: 16px;\n    margin: 0 0 8px;\n  \x7d\n  textarea \x7b\n    width: 100%;\n    height: calc(100vh - 40px);\n    resize: none;\n    font-family: -apple-system, system-ui, sans-serif;\n    font-size: 13px;\n    padding: 6px;\n    box-sizing: border-box;\n  \x7d\n</style>\n</head>\n<body>\n<h1>Notes</h1>\n<textarea placeholder=\"Type notes here…\"></textarea>\n</body>\n</html>"

/-- Uppercase hex digit, as produced by JS encodeURIComponent. -/
def uriHexDigit (n : Nat) : Char :=
  if n < 10 then Char.ofNat (48 + n) else Char.ofNat (55 + n)

/-- Bytes encodeURIComponent leaves unescaped: A-Z a-z 0-9 and
- _ . ! ~ * ( ) and the apostrophe. -/
def uriUnreserved (n : Nat) : Bool :=
  (65 ≤ n && n ≤ 90) || (97 ≤ n && n ≤ 122) || (48 ≤ n && n ≤ 57) ||
  n == 45 || n == 95 || n == 46 || n == 33 || n == 126 || n == 42 ||
  n == 39 || n == 40 || n == 41

/-- Percent-encode one UTF-8 byte. -/
def encodeByte (b : UInt8) : String :=
  let n := b.toNat
  if uriUnreserved n then String.singleton (Char.ofNat n)
  else "%" ++ String.singleton (uriHexDigit (n / 16)) ++ String.singleton (uriHexDigit (n % 16))

/-- JS encodeURIComponent on the UTF-8 bytes of a string. -/
def encodeURIComponent (s : String) : String :=
  (s.toUTF8.toList.map encodeByte).foldl (fun a b => a ++ b) ""

/-- The data: address the notes window loads (src/index.js line 215). -/
def notesDataUrl : String :=
  "data:text/html;charset=utf-8," ++ encodeURIComponent notesHtml

/-- A fresh notes window (src/index.js lines 170-179): 400x500,
shown immediately, loading the static document. -/
def notesWindowInit : Window :=
  { title := "GPT Notes", url := notesDataUrl, width := 400, height := 500,
    minimized := false, visible := true, zoomFactor := 1,
    alwaysOnTop := false, fullScreen := false }

/-- createNotesWindow (src/index.js lines 164-220): focus the live
notes window if one exists, else create one; its closed handler
(lines 217-219) is modelled in closeWindow. -/
def createNotesWindow (s : AppState) : AppState × List Effect :=
  match getNotes s with
  | some (id, _) => (s, [Effect.focusWindow id])
  | none =>
    let id := s.nextId
    ({ s with
        nextId := id + 1,
        notesWindow := some id,
        windowsN := (id, notesWindowInit) :: s.windowsN },
     [Effect.createWindow id 400 500, Effect.loadUrl id notesDataUrl])

/-! ## Global shortcuts and app lifecycle (src/index.js lines 427-463) -/

/-- The platform-specific hotkey (src/index.js line 429). -/
def shortcutCombo (isMac : Bool) : String :=
  if isMac then "Control+Option+G" else "Control+Alt+G"

/-- registerGlobalShortcuts (src/index.js lines 427-438): attempt to
register the hotkey; on failure only log, no dialog. -/
def registerGlobalShortcuts (s : AppState) (isMac : Bool) (ok : Bool) :
    AppState × List Effect :=
  let combo := shortcutCombo isMac
  if ok then
    ({ s with registeredShortcuts := combo :: s.registeredShortcuts },
     [Effect.registerShortcut combo])
  else
    (s, [Effect.registerShortcut combo,
         Effect.logError "Failed to register global shortcut"])

/-- The app.whenReady handler (src/index.js lines 440-453): set the
app name, build the menu, create the primary window, register the
global shortcut. -/
def appReady (isMac : Bool) (shortcutOk : Bool) : AppState × List Effect :=
  let p1 := createMainWindow emptyState
  let p2 := registerGlobalShortcuts p1.1 isMac shortcutOk
  (p2.1, [Effect.setAppName "GPT", Effect.setAppMenu] ++ p1.2 ++ p2.2)

/-- The activate handler (src/index.js lines 448-452): create a
primary window only when no window at all is open. -/
def activateApp (s : AppState) : AppState × List Effect :=
  if s.windowsM.length + s.windowsN.length = 0 then createMainWindow s else (s, [])

/-- The window-all-closed handler (src/index.js lines 455-459). -/
def windowAllClosed (isMac : Bool) : List Effect :=
  if isMac then [] else [Effect.quitApp]

/-- The will-quit handler (src/index.js lines 461-463): release all
global shortcut registrations together. -/
def willQuit (s : AppState) : AppState × List Effect :=
  ({ s with registeredShortcuts := [] }, [Effect.unregisterAllShortcuts])

/-! ## The window-lifecycle event system (for the uniqueness
invariant): the lifecycle entry points the running program exposes,
applied in any order. -/

/-- Window-lifecycle events: ensureMainWindow (menu or global
hotkey), newChat, the activate hook, the Notes Window menu entry,
the ready-to-show callback, and destruction of a window. -/
inductive Event where
  | ensureMain
  | newChatEv
  | activate
  | notes
  | ready
  | close (id : Nat)
deriving Repr, DecidableEq

/-- One lifecycle step. -/
def stepEv (s : AppState) : Event → AppState
  | Event.ensureMain => (ensureMainWindow s).1
  | Event.newChatEv => (newChat s).1
  | Event.activate => (activateApp s).1
  | Event.notes => (createNotesWindow s).1
  | Event.ready => (readyToShow s).1
  | Event.close id => closeWindow s id

/-- State right after startup: the unconditional createMainWindow
call of the whenReady handler, from the empty state. -/
def startupState : AppState := (createMainWindow emptyState).1

/-- Run a sequence of lifecycle events from the post-startup state. -/
def runEvents (es : List Event) : AppState := es.foldl stepEv startupState

/-! ## Derived observations and the ownership invariant -/

/-- Is an effect a file-write attempt? -/
def isFileWrite : Effect → Bool
  | Effect.fileWrite _ _ => true
  | _ => false

/-- Number of file-write attempts in an effect trace. -/
def writeCount (effs : List Effect) : Nat := (effs.filter isFileWrite).length

/-- Zoom factor of a live primary window. -/
def zoomOf (s : AppState) (id : Nat) : Option ℚ :=
  (findWin id s.windowsM).map Window.zoomFactor

/-- Always-on-top flag of a live primary window. -/
def onTopOf (s : AppState) (id : Nat) : Option Bool :=
  (findWin id s.windowsM).map Window.alwaysOnTop

/-- Loaded address of a live primary window. -/
def urlOf (s : AppState) (id : Nat) : Option String :=
  (findWin id s.windowsM).map Window.url

/-- Is sub a prefix of l? -/
def isPrefixChars : List Char → List Char → Bool
  | [], _ => true
  | _ :: _, [] => false
  | a :: as, b :: bs => a == b && isPrefixChars as bs

/-- Does sub occur as a contiguous sublist of l? -/
def containsChars (sub : List Char) : List Char → Bool
  | [] => isPrefixChars sub []
  | l@(_ :: rest) => isPrefixChars sub l || containsChars sub rest

/-- Does sub occur as a substring of s? -/
def containsSub (sub s : String) : Bool := containsChars sub.data s.data

/-- The ownership invariant of the window-lifecycle manager: every
live primary window is exactly the one designated by the mainWindow
slot, all window ids are below the fresh-id counter, and ids are
pairwise distinct. -/
def Inv (s : AppState) : Prop :=
  (∀ p ∈ s.windowsM, s.mainWindow = some p.1) ∧
  (∀ p ∈ s.windowsM, p.1 < s.nextId) ∧
  (∀ p ∈ s.windowsN, p.1 < s.nextId) ∧
  ((s.windowsM ++ s.windowsN).map Prod.fst).Nodup

/-- The export-action state machine contract for one invocation with
oracle outcomes d (path prompt), source (render/extract/capture) and
write: the state (both window-handle slots included) is unchanged and
the process is not terminated; at most one write attempt ever occurs;
cancellation (or a falsy path) means no write attempt; a source
failure reaching the pipeline yields an error dialog carrying the
underlying message plus a log entry and no write attempt; a write
failure yields the same error reporting; and a run that reaches the
writing stage makes exactly one write attempt. -/
def exportRunOk (s : AppState) (d : SaveDialogResult)
    (source : Except String String) (write : Except String Unit)
    (errTitle : String) (run : AppState × List Effect) : Prop :=
  run.1 = s ∧
  Effect.quitApp ∉ run.2 ∧
  writeCount run.2 ≤ 1 ∧
  ((d.canceled || !pathTruthy d.filePath) = true → writeCount run.2 = 0) ∧
  (∀ e, source = Except.error e →
    (d.canceled || !pathTruthy d.filePath) = false →
    Effect.errorDialog errTitle e ∈ run.2 ∧
    (∃ m, Effect.logError m ∈ run.2) ∧ writeCount run.2 = 0) ∧
  (∀ e data, write = Except.error e → source = Except.ok data →
    (d.canceled || !pathTruthy d.filePath) = false →
    Effect.errorDialog errTitle e ∈ run.2 ∧
    (∃ m, Effect.logError m ∈ run.2)) ∧
  (∀ data, source = Except.ok data →
    (d.canceled || !pathTruthy d.filePath) = false →
    writeCount run.2 = 1)

/-! ## Association-list lemmas -/

theorem findWin_isSome_of_mem {p : Nat × Window} {l : List (Nat × Window)}
    (h : p ∈ l) : ∃ w, findWin p.1 l = some w := by
  induction l with
  | nil => simp at h
  | cons q rest ih =>
    obtain ⟨k, w0⟩ := q
    rcases List.mem_cons.mp h with h | h
    · subst h; exact ⟨w0, by simp [findWin]⟩
    · by_cases hk : k = p.1
      · exact ⟨w0, by simp [findWin, hk]⟩
      · obtain ⟨w, hw⟩ := ih h
        exact ⟨w, by simp [findWin, hk, hw]⟩

theorem mem_of_findWin_some {id : Nat} {w : Window} {l : List (Nat × Window)}
    (h : findWin id l = some w) : (id, w) ∈ l := by
  induction l with
  | nil => simp [findWin] at h
  | cons q rest ih =>
    obtain ⟨k, w0⟩ := q
    by_cases hk : k = id
    · subst hk
      simp only [findWin, if_pos, Option.some.injEq] at h
      subst h
      exact List.mem_cons_self _ _
    · simp only [findWin, if_neg hk] at h
      exact List.mem_cons_of_mem _ (ih h)

theorem map_fst_setWin (id : Nat) (w : Window) (l : List (Nat × Window)) :
    (setWin id w l).map Prod.fst = l.map Prod.fst := by
  induction l with
  | nil => rfl
  | cons q rest ih =>
    obtain ⟨k, w0⟩ := q
    by_cases hk : k = id <;> simp [setWin, hk, ih]

theorem fst_mem_of_mem_setWin {id : Nat} {w : Window} {p : Nat × Window}
    {l : List (Nat × Window)} (h : p ∈ setWin id w l) :
    ∃ q ∈ l, q.1 = p.1 := by
  induction l with
  | nil => simp [setWin] at h
  | cons q0 rest ih =>
    obtain ⟨k, w0⟩ := q0
    by_cases hk : k = id
    · simp only [setWin, if_pos hk] at h
      rcases List.mem_cons.mp h with h | h
      · subst h; exact ⟨(k, w0), List.mem_cons_self _ _, rfl⟩
      · obtain ⟨q, hq, hfst⟩ := ih h
        exact ⟨q, List.mem_cons_of_mem _ hq, hfst⟩
    · simp only [setWin, if_neg hk] at h
      rcases List.mem_cons.mp h with h | h
      · subst h; exact ⟨(k, w0), List.mem_cons_self _ _, rfl⟩
      · obtain ⟨q, hq, hfst⟩ := ih h
        exact ⟨q, List.mem_cons_of_mem _ hq, hfst⟩

theorem findWin_setWin_self {id : Nat} {w0 w : Window} {l : List (Nat × Window)}
    (h : findWin id l = some w0) : findWin id (setWin id w l) = some w := by
  induction l with
  | nil => simp [findWin] at h
  | cons q rest ih =>
    obtain ⟨k, wq⟩ := q
    by_cases hk : k = id
    · simp [setWin, findWin, hk]
    · simp only [setWin, if_neg hk, findWin] at h ⊢
      exact ih h

theorem removeWin_sublist (id : Nat) (l : List (Nat × Window)) :
    (removeWin id l).Sublist l := by
  induction l with
  | nil => simp [removeWin]
  | cons q rest ih =>
    obtain ⟨k, w0⟩ := q
    by_cases hk : k = id
    · simp only [removeWin, if_pos hk]
      exact ih.cons _
    · simp only [removeWin, if_neg hk]
      exact ih.cons₂ _

theorem removeWin_eq_nil {id : Nat} {l : List (Nat × Window)}
    (h : ∀ p ∈ l, p.1 = id) : removeWin id l = [] := by
  induction l with
  | nil => rfl
  | cons q rest ih =>
    obtain ⟨k, w0⟩ := q
    have hk : k = id := h (k, w0) (List.mem_cons_self _ _)
    simp only [removeWin, if_pos hk]
    exact ih (fun p hp => h p (List.mem_cons_of_mem _ hp))

theorem length_le_one_of_const_fst {l : List (Nat × Window)} {a : Nat}
    (h : ∀ p ∈ l, p.1 = a) (hn : (l.map Prod.fst).Nodup) : l.length ≤ 1 := by
  match l with
  | [] => simp
  | [p] => simp
  | p :: q :: rest =>
    exfalso
    have hp : p.1 = a := h p (by simp)
    have hq : q.1 = a := h q (by simp)
    simp only [List.map_cons, List.nodup_cons] at hn
    exact hn.1 (List.mem_cons.mpr (Or.inl (hp.trans hq.symm)))

/-! ## Inversion lemmas for the liveness test -/

theorem getMain_none_windowsM_nil {s : AppState}
    (h1 : ∀ p ∈ s.windowsM, s.mainWindow = some p.1)
    (h : getMain s = none) : s.windowsM = [] := by
  cases hM : s.windowsM with
  | nil => rfl
  | cons p rest =>
    exfalso
    have hslot : s.mainWindow = some p.1 := h1 p (by simp [hM])
    obtain ⟨w, hw⟩ :=
      findWin_isSome_of_mem (p := p) (l := s.windowsM) (by simp [hM])
    simp [getMain, hslot, hw] at h

theorem getMain_some_inv {s : AppState} {id : Nat} {w : Window}
    (h : getMain s = some (id, w)) :
    s.mainWindow = some id ∧ findWin id s.windowsM = some w := by
  cases hm : s.mainWindow with
  | none => simp [getMain, hm] at h
  | some k =>
    cases hf : findWin k s.windowsM with
    | none => simp [getMain, hm, hf] at h
    | some w0 =>
      simp [getMain, hm, hf] at h
      obtain ⟨rfl, rfl⟩ := h
      exact ⟨rfl, hf⟩

theorem getNotes_some_inv {s : AppState} {id : Nat} {w : Window}
    (h : getNotes s = some (id, w)) :
    s.notesWindow = some id ∧ findWin id s.windowsN = some w := by
  cases hm : s.notesWindow with
  | none => simp [getNotes, hm] at h
  | some k =>
    cases hf : findWin k s.windowsN with
    | none => simp [getNotes, hm, hf] at h
    | some w0 =>
      simp [getNotes, hm, hf] at h
      obtain ⟨rfl, rfl⟩ := h
      exact ⟨rfl, hf⟩

/-! ## Preservation of the ownership invariant -/

theorem inv_createMainWindow {s : AppState} (hInv : Inv s)
    (hM : s.windowsM = []) : Inv (createMainWindow s).1 := by
  obtain ⟨h1, h2, h3, h4⟩ := hInv
  refine ⟨?_, ?_, ?_, ?_⟩
  · intro p hp
    simp only [createMainWindow, hM] at hp ⊢
    simp at hp
    subst hp
    rfl
  · intro p hp
    simp only [createMainWindow, hM] at hp ⊢
    simp at hp
    subst hp
    exact Nat.lt_succ_self _
  · intro p hp
    simp only [createMainWindow] at hp ⊢
    exact Nat.lt_succ_of_lt (h3 p hp)
  · simp only [createMainWindow, hM, List.nil_append, List.cons_append,
      List.map_cons, List.nodup_cons]
    refine ⟨?_, ?_⟩
    · intro hmem
      obtain ⟨p, hp, hfst⟩ := List.mem_map.mp hmem
      have := h3 p hp
      omega
    · rw [hM] at h4
      simpa using h4

theorem inv_setWinM {s : AppState} (hInv : Inv s) (id : Nat) (w : Window) :
    Inv { s with windowsM := setWin id w s.windowsM } := by
  obtain ⟨h1, h2, h3, h4⟩ := hInv
  refine ⟨?_, ?_, ?_, ?_⟩
  · intro p hp
    obtain ⟨q, hq, hfst⟩ := fst_mem_of_mem_setWin hp
    rw [← hfst]
    exact h1 q hq
  · intro p hp
    obtain ⟨q, hq, hfst⟩ := fst_mem_of_mem_setWin hp
    rw [← hfst]
    exact h2 q hq
  · exact h3
  · simpa [List.map_append, map_fst_setWin] using
      (by simpa [List.map_append] using h4 :
        (s.windowsM.map Prod.fst ++ s.windowsN.map Prod.fst).Nodup)

theorem inv_closeWindow {s : AppState} (hInv : Inv s) (id : Nat) :
    Inv (closeWindow s id) := by
  obtain ⟨h1, h2, h3, h4⟩ := hInv
  unfold closeWindow
  cases hfM : findWin id s.windowsM with
  | some w =>
    have hall : ∀ p ∈ s.windowsM, p.1 = id := by
      intro p hp
      have e1 := h1 p hp
      have e2 := h1 (id, w) (mem_of_findWin_some hfM)
      exact Option.some.inj (e1.symm.trans e2)
    have hrm : removeWin id s.windowsM = [] := removeWin_eq_nil hall
    refine ⟨?_, ?_, ?_, ?_⟩
    · intro p hp
      simp [hrm] at hp
    · intro p hp
      simp [hrm] at hp
    · exact h3
    · simp only [hrm, List.nil_append]
      have hsub : List.Sublist (s.windowsN.map Prod.fst)
          ((s.windowsM ++ s.windowsN).map Prod.fst) :=
        (List.sublist_append_right _ _).map Prod.fst
      exact List.Nodup.sublist hsub h4
  | none =>
    cases hfN : findWin id s.windowsN with
    | some w =>
      refine ⟨?_, ?_, ?_, ?_⟩
      · exact h1
      · exact h2
      · intro p hp
        exact h3 p ((removeWin_sublist id s.windowsN).subset hp)
      · have hsub : List.Sublist ((s.windowsM ++ removeWin id s.windowsN).map Prod.fst)
            ((s.windowsM ++ s.windowsN).map Prod.fst) :=
          ((removeWin_sublist id s.windowsN).append_left s.windowsM).map Prod.fst
        exact List.Nodup.sublist hsub h4
    | none => exact ⟨h1, h2, h3, h4⟩

theorem inv_createNotesWindow {s : AppState} (hInv : Inv s) :
    Inv (createNotesWindow s).1 := by
  obtain ⟨h1, h2, h3, h4⟩ := hInv
  cases hg : getNotes s with
  | some pr =>
    simp only [createNotesWindow, hg]
    exact ⟨h1, h2, h3, h4⟩
  | none =>
    simp only [createNotesWindow, hg]
    refine ⟨fun p hp => h1 p hp, fun p hp => Nat.lt_succ_of_lt (h2 p hp), ?_, ?_⟩
    · intro p hp
      rcases List.mem_cons.mp hp with rfl | hp
      · exact Nat.lt_succ_self _
      · exact Nat.lt_succ_of_lt (h3 p hp)
    · have heq : (s.windowsM ++ (s.nextId, notesWindowInit) :: s.windowsN).map Prod.fst
          = s.windowsM.map Prod.fst ++ s.nextId :: s.windowsN.map Prod.fst := by
        simp
      rw [heq, List.nodup_middle]
      refine List.nodup_cons.mpr ⟨?_, ?_⟩
      · intro hmem
        rw [← List.map_append] at hmem
        obtain ⟨p, hp, hfst⟩ := List.mem_map.mp hmem
        rcases List.mem_append.mp hp with hp | hp
        · have := h2 p hp; omega
        · have := h3 p hp; omega
      · rw [← List.map_append]; exact h4

theorem inv_stepEv {s : AppState} (hInv : Inv s) (e : Event) :
    Inv (stepEv s e) := by
  cases e with
  | ensureMain =>
    cases hg : getMain s with
    | none =>
      have hM := getMain_none_windowsM_nil hInv.1 hg
      simp only [stepEv, ensureMainWindow, hg]
      exact inv_createMainWindow hInv hM
    | some pr =>
      obtain ⟨id, w⟩ := pr
      simp only [stepEv, ensureMainWindow, hg]
      exact inv_setWinM hInv id _
  | newChatEv =>
    cases hg : getMain s with
    | none =>
      have hM := getMain_none_windowsM_nil hInv.1 hg
      simp only [stepEv, newChat, hg]
      exact inv_createMainWindow hInv hM
    | some pr =>
      obtain ⟨id, w⟩ := pr
      simp only [stepEv, newChat, hg]
      exact inv_setWinM hInv id _
  | activate =>
    simp only [stepEv, activateApp]
    by_cases hc : s.windowsM.length + s.windowsN.length = 0
    · rw [if_pos hc]
      have hM : s.windowsM = [] := List.length_eq_zero.mp (by omega)
      exact inv_createMainWindow hInv hM
    · rw [if_neg hc]
      exact hInv
  | notes =>
    simp only [stepEv]
    exact inv_createNotesWindow hInv
  | ready =>
    cases hg : getMain s with
    | none =>
      simp only [stepEv, readyToShow, hg]
      exact hInv
    | some pr =>
      obtain ⟨id, w⟩ := pr
      simp only [stepEv, readyToShow, hg]
      exact inv_setWinM hInv id _
  | close id =>
    simp only [stepEv]
    exact inv_closeWindow hInv id

theorem inv_foldl (es : List Event) :
    ∀ s, Inv s → Inv (es.foldl stepEv s) := by
  induction es with
  | nil => intro s h; exact h
  | cons e rest ih =>
    intro s h
    exact ih _ (inv_stepEv h e)

theorem inv_startupState : Inv startupState := by
  refine ⟨?_, ?_, ?_, ?_⟩ <;>
    simp [startupState, createMainWindow, emptyState, Inv]

theorem inv_runEvents (es : List Event) : Inv (runEvents es) :=
  inv_foldl es startupState inv_startupState

theorem liveMain_le_one_of_inv {s : AppState} (hInv : Inv s) :
    s.windowsM.length ≤ 1 := by
  obtain ⟨h1, -, -, h4⟩ := hInv
  have hnd : (s.windowsM.map Prod.fst).Nodup :=
    List.Nodup.sublist ((List.sublist_append_left _ _).map Prod.fst) h4
  cases hM : s.windowsM with
  | nil => simp
  | cons p rest =>
    apply length_le_one_of_const_fst (a := p.1) _ (hM ▸ hnd)
    intro q hq
    have e1 := h1 q (hM ▸ hq)
    have e2 := h1 p (by simp [hM])
    exact Option.some.inj (e1.symm.trans e2)

theorem setWin_length (id : Nat) (w : Window) (l : List (Nat × Window)) :
    (setWin id w l).length = l.length := by
  induction l with
  | nil => rfl
  | cons q rest ih =>
    obtain ⟨k, w0⟩ := q
    by_cases hk : k = id <;> simp [setWin, hk, ih]

/-! ## Claim theorems -/

/-- C1: for every sequence of window-lifecycle events (ensureMainWindow
invocations from menu or hotkey, newChat, the activate hook's guarded
createMainWindow, notes-window requests, ready-to-show, and
window-close events) applied after the startup createMainWindow call,
at most one live primary window exists afterward; and destroying a
live primary window always clears the owning mainWindow slot. -/
theorem at_most_one_live_primary :
    (∀ es : List Event, liveMainCount (runEvents es) ≤ 1) ∧
    (∀ es : List Event, ∀ id w,
      findWin id (runEvents es).windowsM = some w →
      (closeWindow (runEvents es) id).mainWindow = none) := by
  constructor
  · intro es
    exact liveMain_le_one_of_inv (inv_runEvents es)
  · intro es id w h
    simp [closeWindow, h]

/-- Witness for C1: two ensureMainWindow calls leave one live primary
window, and closing the startup window clears the slot. -/
theorem at_most_one_live_primary_witness :
    liveMainCount (runEvents [Event.ensureMain, Event.ensureMain]) ≤ 1 ∧
    (closeWindow (runEvents []) 0).mainWindow = none :=
  ⟨at_most_one_live_primary.1 [Event.ensureMain, Event.ensureMain],
   at_most_one_live_primary.2 [] 0 mainWindowInit (by rfl)⟩

/-- C2: every Command Action, invoked while the mainWindow slot is
null or destroyed, returns the state unchanged (both window-handle
slots included) and an empty effect trace: no dialog, no file write,
no clipboard write. -/
theorem commandActions_noop_without_live_primary (s : AppState)
    (h : getMain s = none) :
    (∀ clipboardErr, copyChatUrl s clipboardErr = (s, [])) ∧
    (∀ openErr, openInBrowser s openErr = (s, [])) ∧
    (∀ d render write, saveChatAsPdf s d render write = (s, [])) ∧
    (∀ d extraction write, saveChatAsText s d extraction write = (s, [])) ∧
    (∀ d capture write, screenshotWindow s d capture write = (s, [])) ∧
    resetWindowSize s = (s, []) ∧
    zoomInClick s = (s, []) ∧
    zoomOutClick s = (s, []) ∧
    zoomResetClick s = (s, []) ∧
    toggleFullScreenClick s = (s, []) ∧
    toggleAlwaysOnTopClick s = (s, []) := by
  refine ⟨fun e => ?_, fun e => ?_, fun d r wr => ?_, fun d r wr => ?_,
    fun d r wr => ?_, ?_, ?_, ?_, ?_, ?_, ?_⟩ <;>
    simp [copyChatUrl, openInBrowser, saveChatAsPdf, saveChatAsText,
      screenshotWindow, resetWindowSize, zoomInClick, zoomOutClick,
      zoomResetClick, toggleFullScreenClick, toggleAlwaysOnTopClick, h]

/-- Witness for C2 at the empty state, where no window exists. -/
theorem commandActions_noop_witness :
    copyChatUrl emptyState none = (emptyState, []) ∧
    saveChatAsPdf emptyState ⟨false, some "chat.pdf"⟩ (Except.ok "pdf-bytes")
      (Except.ok ()) = (emptyState, []) ∧
    toggleAlwaysOnTopClick emptyState = (emptyState, []) := by
  obtain ⟨a1, a2, a3, a4, a5, a6, a7, a8, a9, a10, a11⟩ :=
    commandActions_noop_without_live_primary emptyState rfl
  exact ⟨a1 none, a3 _ _ _, a11⟩

/-- C4: newChat creates a primary window when none is live, and
otherwise keeps the same handle in the slot (no window is created,
the live-window count and the fresh-id counter are unchanged) while
re-navigating it to the canonical starting address. -/
theorem newChat_canonical_address (s : AppState) :
    (getMain s = none → newChat s = createMainWindow s) ∧
    (∀ id w, getMain s = some (id, w) →
      (newChat s).1.mainWindow = s.mainWindow ∧
      (newChat s).1.nextId = s.nextId ∧
      liveMainCount (newChat s).1 = liveMainCount s ∧
      (newChat s).2 = [Effect.loadUrl id chatUrl] ∧
      urlOf (newChat s).1 id = some chatUrl) := by
  constructor
  · intro h
    simp [newChat, h]
  · intro id w h
    obtain ⟨hm, hf⟩ := getMain_some_inv h
    have hfw := findWin_setWin_self (w := { w with url := chatUrl }) hf
    refine ⟨?_, ?_, ?_, ?_, ?_⟩ <;>
      simp [newChat, h, liveMainCount, setWin_length, urlOf, hfw]

/-- Witness for C4: at startup the window is live and newChat
re-navigates it. -/
theorem newChat_canonical_address_witness :
    (newChat startupState).1.mainWindow = startupState.mainWindow ∧
    (newChat startupState).2 = [Effect.loadUrl 0 chatUrl] ∧
    urlOf (newChat startupState).1 0 = some chatUrl := by
  obtain ⟨h1, h2, h3, h4, h5⟩ :=
    (newChat_canonical_address startupState).2 0 mainWindowInit (by rfl)
  exact ⟨h1, h4, h5⟩

/-- C5: on a live primary window, Zoom In applies factor + 0.1,
Zoom Out applies max(0.5, factor - 0.1) so that from any factor at
least 0.5 any number of repeated Zoom Out invocations leaves the
factor at least 0.5, and Reset Zoom applies exactly 1.0. -/
theorem zoom_actions_spec (s : AppState) (id : Nat) (w : Window)
    (h : getMain s = some (id, w)) :
    zoomOf (zoomInClick s).1 id = some (w.zoomFactor + 1/10) ∧
    zoomOf (zoomOutClick s).1 id = some (max (1/2) (w.zoomFactor - 1/10)) ∧
    zoomOf (zoomResetClick s).1 id = some 1 ∧
    (∀ f : ℚ, 1/2 ≤ f → ∀ n : ℕ, 1/2 ≤ zoomOutFactor^[n] f) := by
  obtain ⟨hm, hf⟩ := getMain_some_inv h
  refine ⟨?_, ?_, ?_, ?_⟩
  · have hfw := findWin_setWin_self
      (w := { w with zoomFactor := zoomInFactor w.zoomFactor }) hf
    simp only [zoomOf, zoomInClick, h]
    rw [hfw]
    simp [zoomInFactor]
  · have hfw := findWin_setWin_self
      (w := { w with zoomFactor := zoomOutFactor w.zoomFactor }) hf
    simp only [zoomOf, zoomOutClick, h]
    rw [hfw]
    simp [zoomOutFactor]
  · have hfw := findWin_setWin_self
      (w := { w with zoomFactor := (1 : ℚ) }) hf
    simp only [zoomOf, zoomResetClick, h]
    rw [hfw]
    simp
  · intro f hf0 n
    cases n with
    | zero => simpa using hf0
    | succ n =>
      rw [Function.iterate_succ_apply']
      exact le_max_left _ _

/-- Witness for C5 on the startup window (factor 1). -/
theorem zoom_actions_spec_witness :
    zoomOf (zoomInClick startupState).1 0 = some (1 + 1/10) ∧
    zoomOf (zoomOutClick startupState).1 0 = some (max (1/2) (1 - 1/10)) ∧
    zoomOf (zoomResetClick startupState).1 0 = some 1 ∧
    (1 : ℚ)/2 ≤ zoomOutFactor^[7] 1 := by
  obtain ⟨h1, h2, h3, h4⟩ :=
    zoom_actions_spec startupState 0 mainWindowInit (by rfl)
  exact ⟨h1, h2, h3, h4 1 (by norm_num) 7⟩

/-- One Always On Top invocation on a live primary window inverts
the flag and leaves the handle live. -/
theorem toggle_onTop_step {s : AppState} {id : Nat} {w : Window}
    (h : getMain s = some (id, w)) :
    getMain (toggleAlwaysOnTopClick s).1
      = some (id, { w with alwaysOnTop := !w.alwaysOnTop }) ∧
    onTopOf (toggleAlwaysOnTopClick s).1 id = some (!w.alwaysOnTop) := by
  obtain ⟨hm, hf⟩ := getMain_some_inv h
  have hf1 := findWin_setWin_self
    (w := { w with alwaysOnTop := !w.alwaysOnTop }) hf
  constructor
  · simp only [toggleAlwaysOnTopClick, h]
    simp [getMain, hm, hf1]
  · simp only [toggleAlwaysOnTopClick, h, onTopOf]
    rw [hf1]
    simp

/-- C7: Always On Top reads the live primary window's flag, inverts
it and applies it, so two consecutive invocations return the flag to
its original value. -/
theorem toggleAlwaysOnTop_involution (s : AppState) (id : Nat) (w : Window)
    (h : getMain s = some (id, w)) :
    onTopOf (toggleAlwaysOnTopClick s).1 id = some (!w.alwaysOnTop) ∧
    onTopOf (toggleAlwaysOnTopClick (toggleAlwaysOnTopClick s).1).1 id
      = some w.alwaysOnTop := by
  refine ⟨(toggle_onTop_step h).2, ?_⟩
  simpa using (toggle_onTop_step (toggle_onTop_step h).1).2

/-- Witness for C7 on the startup window (flag initially false). -/
theorem toggleAlwaysOnTop_involution_witness :
    onTopOf (toggleAlwaysOnTopClick startupState).1 0 = some true ∧
    onTopOf (toggleAlwaysOnTopClick (toggleAlwaysOnTopClick startupState).1).1 0
      = some false :=
  toggleAlwaysOnTop_involution startupState 0 mainWindowInit (by rfl)

/-- C3: each export action (PDF, text, screenshot) on a live primary
window prompts for a path and then: cancellation goes back to idle
with no write attempt, a source or write failure goes back to idle
with an error dialog carrying the underlying message plus a log
entry, exactly one write attempt is made per run that reaches the
writing stage (never more than one in any run), and no path
terminates the process or changes the window-handle slots. -/
theorem export_actions_state_machine (s : AppState) (id : Nat) (w : Window)
    (h : getMain s = some (id, w)) (d : SaveDialogResult)
    (render extraction capture : Except String String)
    (write : Except String Unit) :
    exportRunOk s d render write "Save Chat as PDF Failed"
      (saveChatAsPdf s d render write) ∧
    exportRunOk s d extraction write "Save Chat as Text Failed"
      (saveChatAsText s d extraction write) ∧
    exportRunOk s d capture write "Screenshot Failed"
      (screenshotWindow s d capture write) := by
  refine ⟨?_, ?_, ?_⟩
  · unfold exportRunOk
    by_cases hg : (d.canceled || !pathTruthy d.filePath) = true
    · simp [saveChatAsPdf, h, hg, writeCount, isFileWrite]
    · rw [Bool.not_eq_true] at hg
      cases render with
      | error e => simp [saveChatAsPdf, h, hg, writeCount, isFileWrite]
      | ok data =>
        cases write with
        | error e => simp [saveChatAsPdf, h, hg, writeCount, isFileWrite]
        | ok u => simp [saveChatAsPdf, h, hg, writeCount, isFileWrite]
  · unfold exportRunOk
    by_cases hg : (d.canceled || !pathTruthy d.filePath) = true
    · simp [saveChatAsText, h, hg, writeCount, isFileWrite]
    · rw [Bool.not_eq_true] at hg
      cases extraction with
      | error e => simp [saveChatAsText, h, hg, writeCount, isFileWrite]
      | ok data =>
        cases write with
        | error e => simp [saveChatAsText, h, hg, writeCount, isFileWrite]
        | ok u => simp [saveChatAsText, h, hg, writeCount, isFileWrite]
  · unfold exportRunOk
    by_cases hg : (d.canceled || !pathTruthy d.filePath) = true
    · simp [screenshotWindow, h, hg, writeCount, isFileWrite]
    · rw [Bool.not_eq_true] at hg
      cases capture with
      | error e => simp [screenshotWindow, h, hg, writeCount, isFileWrite]
      | ok data =>
        cases write with
        | error e => simp [screenshotWindow, h, hg, writeCount, isFileWrite]
        | ok u => simp [screenshotWindow, h, hg, writeCount, isFileWrite]

/-- Witness for C3: a successful PDF export on the startup window. -/
theorem export_actions_state_machine_witness :
    exportRunOk startupState ⟨false, some "chat.pdf"⟩ (Except.ok "PDFDATA")
      (Except.ok ()) "Save Chat as PDF Failed"
      (saveChatAsPdf startupState ⟨false, some "chat.pdf"⟩ (Except.ok "PDFDATA")
        (Except.ok ())) :=
  (export_actions_state_machine startupState 0 mainWindowInit (by rfl)
    ⟨false, some "chat.pdf"⟩ (Except.ok "PDFDATA") (Except.ok "TEXT")
    (Except.ok "PNG") (Except.ok ())).1

/-- C9: in every export action, a save-dialog result that is not
canceled but carries an absent or empty path is treated exactly like
cancellation: the action ends after the prompt with no render,
capture or write and an unchanged state. -/
theorem falsy_path_is_cancellation (s : AppState) (id : Nat) (w : Window)
    (h : getMain s = some (id, w)) (d : SaveDialogResult)
    (hc : d.canceled = false) (hp : pathTruthy d.filePath = false)
    (render extraction capture : Except String String)
    (write : Except String Unit) :
    saveChatAsPdf s d render write
      = (s, [Effect.showSaveDialog "Save Chat as PDF" "chatgpt-chat.pdf"]) ∧
    saveChatAsText s d extraction write
      = (s, [Effect.showSaveDialog "Save Chat as Text" "chatgpt-chat.txt"]) ∧
    screenshotWindow s d capture write
      = (s, [Effect.showSaveDialog "Save Screenshot" "gpt-window.png"]) := by
  have hg : (d.canceled || !pathTruthy d.filePath) = true := by simp [hc, hp]
  refine ⟨?_, ?_, ?_⟩ <;>
    simp [saveChatAsPdf, saveChatAsText, screenshotWindow, h, hg]

/-- Witness for C9: an empty path with canceled = false on the
startup window ends after the prompt. -/
theorem falsy_path_is_cancellation_witness :
    saveChatAsPdf startupState ⟨false, some ""⟩ (Except.ok "PDFDATA")
      (Except.ok ())
      = (startupState, [Effect.showSaveDialog "Save Chat as PDF" "chatgpt-chat.pdf"]) :=
  (falsy_path_is_cancellation startupState 0 mainWindowInit (by rfl)
    ⟨false, some ""⟩ rfl (by decide) (Except.ok "PDFDATA") (Except.ok "TEXT")
    (Except.ok "PNG") (Except.ok ())).1

/-- createNotesWindow on a state with a live notes window only
focuses it. -/
theorem createNotes_focus {t : AppState} {id : Nat} {w0 : Window}
    (h : getNotes t = some (id, w0)) :
    createNotesWindow t = (t, [Effect.focusWindow id]) := by
  simp [createNotesWindow, h]

set_option maxRecDepth 8192 in
/-- C6: from a state with no live notes window (and a fresh id), the
first createNotesWindow call creates exactly one 400x500 notes window
loading the static self-contained notes document (a Notes heading
plus an editable text area; no file write occurs), the second call
only focuses that window without creating another, and destroying
the notes window clears the notesWindow slot. -/
theorem ensureNotes_twice_single_instance (s : AppState)
    (h : s.windowsN = []) (hM : findWin s.nextId s.windowsM = none) :
    liveNotesCount (createNotesWindow s).1 = 1 ∧
    (createNotesWindow s).2
      = [Effect.createWindow s.nextId 400 500,
         Effect.loadUrl s.nextId notesDataUrl] ∧
    findWin s.nextId (createNotesWindow s).1.windowsN = some notesWindowInit ∧
    notesWindowInit.width = 400 ∧
    notesWindowInit.height = 500 ∧
    notesWindowInit.url = notesDataUrl ∧
    containsSub "<h1>Notes</h1>" notesHtml = true ∧
    containsSub "<textarea" notesHtml = true ∧
    createNotesWindow (createNotesWindow s).1
      = ((createNotesWindow s).1, [Effect.focusWindow s.nextId]) ∧
    liveNotesCount (createNotesWindow (createNotesWindow s).1).1 = 1 ∧
    (closeWindow (createNotesWindow s).1 s.nextId).notesWindow = none := by
  have hg : getNotes s = none := by
    cases hm : s.notesWindow with
    | none => simp [getNotes, hm]
    | some k => simp [getNotes, hm, h, findWin]
  have hs1 : (createNotesWindow s).1
      = { s with
          nextId := s.nextId + 1,
          notesWindow := some s.nextId,
          windowsN := [(s.nextId, notesWindowInit)] } := by
    simp [createNotesWindow, hg, h]
  have hg1 : getNotes (createNotesWindow s).1
      = some (s.nextId, notesWindowInit) := by
    rw [hs1]
    simp [getNotes, findWin]
  have hc1 : liveNotesCount (createNotesWindow s).1 = 1 := by
    rw [hs1]; simp [liveNotesCount]
  refine ⟨hc1, ?_, ?_, rfl, rfl, rfl, ?_, ?_, createNotes_focus hg1, ?_, ?_⟩
  · simp [createNotesWindow, hg]
  · rw [hs1]; simp [findWin]
  · decide
  · decide
  · rw [createNotes_focus hg1]
    exact hc1
  · rw [hs1]
    simp [closeWindow, hM, findWin]

/-- Witness for C6 from the empty state. -/
theorem ensureNotes_twice_witness :
    liveNotesCount (createNotesWindow emptyState).1 = 1 ∧
    createNotesWindow (createNotesWindow emptyState).1
      = ((createNotesWindow emptyState).1, [Effect.focusWindow 0]) ∧
    liveNotesCount (createNotesWindow (createNotesWindow emptyState).1).1 = 1 ∧
    (closeWindow (createNotesWindow emptyState).1 0).notesWindow = none := by
  obtain ⟨c1, c2, c3, c4, c5, c6, c7, c8, c9, c10, c11⟩ :=
    ensureNotes_twice_single_instance emptyState rfl rfl
  exact ⟨c1, c9, c10, c11⟩

/-- C8: a failed global-shortcut registration only emits a diagnostic
log entry, shows no error dialog, and startup still completes with
one live primary window; the will-quit hook releases all shortcut
registrations together. -/
theorem shortcut_failure_logged_only (s : AppState) (isMac : Bool) :
    registerGlobalShortcuts s isMac false
      = (s, [Effect.registerShortcut (shortcutCombo isMac),
             Effect.logError "Failed to register global shortcut"]) ∧
    (∀ t m, Effect.errorDialog t m ∉ (registerGlobalShortcuts s isMac false).2) ∧
    Effect.logError "Failed to register global shortcut"
      ∈ (appReady isMac false).2 ∧
    (∀ t m, Effect.errorDialog t m ∉ (appReady isMac false).2) ∧
    liveMainCount (appReady isMac false).1 = 1 ∧
    willQuit s = ({ s with registeredShortcuts := [] },
      [Effect.unregisterAllShortcuts]) ∧
    (willQuit s).1.registeredShortcuts = [] := by
  refine ⟨?_, ?_, ?_, ?_, ?_, ?_, ?_⟩ <;>
    simp [registerGlobalShortcuts, appReady, createMainWindow, emptyState,
      liveMainCount, willQuit, shortcutCombo]

/-- Witness for C8 on the empty state (primary platform). -/
theorem shortcut_failure_logged_only_witness :
    registerGlobalShortcuts emptyState true false
      = (emptyState, [Effect.registerShortcut "Control+Option+G",
         Effect.logError "Failed to register global shortcut"]) ∧
    Effect.errorDialog "Any Title" "Any Message" ∉ (appReady true false).2 ∧
    liveMainCount (appReady true false).1 = 1 := by
  obtain ⟨c1, c2, c3, c4, c5, c6, c7⟩ := shortcut_failure_logged_only emptyState true
  exact ⟨by simpa [shortcutCombo] using c1, c4 "Any Title" "Any Message", c5⟩

/-- C10: zoom-in applies no upper bound: on a live primary window it
sets the factor to f + 0.1 unconditionally, n invocations add n/10,
the factor eventually exceeds every bound, and only zoom-out is
clamped, at 0.5. -/
theorem zoomIn_unbounded :
    (∀ f : ℚ, zoomInFactor f = f + 1/10) ∧
    (∀ (f : ℚ) (n : ℕ), zoomInFactor^[n] f = f + n * (1/10)) ∧
    (∀ f M : ℚ, ∃ n : ℕ, M < zoomInFactor^[n] f) ∧
    (∀ f : ℚ, zoomOutFactor f = max (1/2) (f - 1/10) ∧ 1/2 ≤ zoomOutFactor f) ∧
    (∀ (s : AppState) (id : Nat) (w : Window), getMain s = some (id, w) →
      zoomOf (zoomInClick s).1 id = some (zoomInFactor w.zoomFactor)) := by
  have hiter : ∀ (f : ℚ) (n : ℕ), zoomInFactor^[n] f = f + n * (1/10) := by
    intro f n
    induction n with
    | zero => simp
    | succ n ih =>
      rw [Function.iterate_succ_apply', ih, zoomInFactor]
      push_cast
      ring
  refine ⟨fun f => rfl, hiter, ?_, fun f => ⟨rfl, le_max_left _ _⟩, ?_⟩
  · intro f M
    obtain ⟨n, hn⟩ := exists_nat_gt ((M - f) * 10)
    refine ⟨n, ?_⟩
    rw [hiter]
    have hq : (M - f) * 10 < (n : ℚ) := hn
    linarith
  · intro s id w h
    obtain ⟨hm, hf⟩ := getMain_some_inv h
    have hfw := findWin_setWin_self
      (w := { w with zoomFactor := zoomInFactor w.zoomFactor }) hf
    simp only [zoomOf, zoomInClick, h]
    rw [hfw]
    simp

/-- Witness for C10 on the startup window. -/
theorem zoomIn_unbounded_witness :
    zoomOf (zoomInClick startupState).1 0 = some (zoomInFactor 1) :=
  zoomIn_unbounded.2.2.2.2 startupState 0 mainWindowInit (by rfl)

end ChatGPTMac
